import Mathlib

/-!
Shallow embedding of `src/gobject-list.c` (thiblahute/gobject-list), an
LD_PRELOAD library tracking GObject / GstMiniObject lifetimes.

The registry state (`ObjectData`) and the operations on it are translated
from the C source: hash tables keyed by object addresses become association
lists over `Nat` identities (all tables in the source use pointer hashing
with no destroy function on keys, and the value for the live/added tables
is always `GUINT_TO_POINTER (TRUE)`, so those tables are key sets).
Environment-variable reads (`g_getenv`) become `Option String` parameters,
and the type name obtained by `G_OBJECT_TYPE_NAME (obj)` at a given moment
becomes an explicit parameter of the event at which the C code performs
that query.
-/

/-! ## Display flags (`DisplayFlags` enum, lines 38-47) -/

def DISPLAY_FLAG_NONE : Nat := 0

def DISPLAY_FLAG_CREATE : Nat := 1

def DISPLAY_FLAG_REFS : Nat := 1 <<< 2

def DISPLAY_FLAG_BACKTRACE : Nat := 1 <<< 3

def DISPLAY_FLAG_ALL : Nat :=
  DISPLAY_FLAG_CREATE ||| DISPLAY_FLAG_REFS ||| DISPLAY_FLAG_BACKTRACE

def DISPLAY_FLAG_DEFAULT : Nat := DISPLAY_FLAG_CREATE

/-- The `display_flags_map` table (lines 55-62). -/
def display_flags_map : List (String × Nat) :=
  [("none", DISPLAY_FLAG_NONE),
   ("create", DISPLAY_FLAG_CREATE),
   ("refs", DISPLAY_FLAG_REFS),
   ("backtrace", DISPLAY_FLAG_BACKTRACE),
   ("all", DISPLAY_FLAG_ALL)]

/-- ASCII lower-casing of one character, as `g_ascii_tolower` does. -/
def g_ascii_lower (c : Char) : Char :=
  if 'A' ≤ c ∧ c ≤ 'Z' then Char.ofNat (c.toNat + 32) else c

/-- Equality under `g_ascii_strcasecmp` (line 118): byte-wise comparison
after ASCII case folding. Tokens are kept as `List Char`, the shape of the
C character arrays. -/
def strcaseeq (a b : List Char) : Bool :=
  a.map g_ascii_lower == b.map g_ascii_lower

/-- The inner loop of `display_filter` (lines 116-123): scan
`display_flags_map` in order and stop at the first case-insensitive match;
`none` when the token matches no entry. The loop is unrolled over the five
concrete entries of the table. -/
def token_flag (token : List Char) : Option Nat :=
  if strcaseeq token "none".data then some DISPLAY_FLAG_NONE
  else if strcaseeq token "create".data then some DISPLAY_FLAG_CREATE
  else if strcaseeq token "refs".data then some DISPLAY_FLAG_REFS
  else if strcaseeq token "backtrace".data then some DISPLAY_FLAG_BACKTRACE
  else if strcaseeq token "all".data then some DISPLAY_FLAG_ALL
  else none

/-- The outer token loop of `display_filter` (lines 111-124): starting from
flags cleared to 0 (line 109), OR in the flag of every recognised token. -/
def parseTokens (acc : Nat) : List (List Char) → Nat
  | [] => acc
  | t :: rest =>
      match token_flag t with
      | some f => parseTokens (acc ||| f) rest
      | none => parseTokens acc rest

/-- Splitting loop for `g_strsplit`: cut the character list at every comma,
keeping empty pieces, as GLib does. -/
def g_strsplit_aux (cur : List Char) : List Char → List (List Char)
  | [] => [cur]
  | c :: rest =>
      if c = ',' then cur :: g_strsplit_aux [] rest
      else g_strsplit_aux (cur ++ [c]) rest

/-- `g_strsplit (display, ",", 0)` (line 103): splitting the empty string
yields an empty vector; otherwise split on every comma. -/
def g_strsplit (s : String) : List (List Char) :=
  if s.data = [] then [] else g_strsplit_aux [] s.data

/-- The one-time parse inside `display_filter` (lines 97-129): `none` models
`GOBJECT_LIST_DISPLAY` being unset. When the variable is set, the flags are
cleared only if the token vector is non-empty (lines 107-109), then each
token is looked up in `display_flags_map`. -/
def parseDisplay : Option String → Nat
  | none => DISPLAY_FLAG_DEFAULT
  | some s =>
      let tokens := g_strsplit s
      if tokens.length > 0 then parseTokens 0 tokens else DISPLAY_FLAG_DEFAULT

/-- The query performed by `display_filter` (line 131): test the requested
flags against the parsed mask. -/
def display_filter (display : Option String) (flags : Nat) : Bool :=
  (parseDisplay display &&& flags) != 0

/-- The `static` caching in `display_filter` (lines 94-95, 128): the cache
is `none` before the first call and `some mask` afterwards; every call
returns the query result together with the new cache. -/
def display_filter_step (display : Option String) (cache : Option Nat)
    (flags : Nat) : Bool × Option Nat :=
  let mask := match cache with
    | some m => m
    | none => parseDisplay display
  ((mask &&& flags) != 0, some mask)

/-! ## Name filter (`object_filter`, lines 134-144) -/

/-- `object_filter` as the source executes it: line 139 is `return FALSE;`
ahead of the `filter == NULL` test, so the function returns `false` on
every input and lines 140-143 are dead code. `filter` models
`g_getenv ("GOBJECT_LIST_FILTER")`. -/
def object_filter (filter : Option String) (obj_name : String) : Bool :=
  false

/-- The dead code of `object_filter` (lines 140-143), unreachable because
of the early `return FALSE;` on line 139: unset filter matches everything,
otherwise `strncmp (filter, obj_name, strlen (filter)) == 0`, i.e. the
configured string is a prefix of the type name. -/
def object_filter_deadcode (filter : Option String) (obj_name : String) : Bool :=
  match filter with
  | none => true
  | some f => f.data.isPrefixOf obj_name.data

/-! ## Hash-table operations

The three tables are created with `g_hash_table_new (NULL, NULL)` (lines
288-290): direct pointer hashing, so keys are object identities (`Nat`
here). For `objects` and `added` the stored value is always
`GUINT_TO_POINTER (TRUE)`, so inserting an already-present key leaves the
table's key set — and hence its size — unchanged. -/

/-- `g_hash_table_insert` on a presence table: the key set gains `k`. -/
def tbl_insert (t : List Nat) (k : Nat) : List Nat :=
  if t.contains k then t else k :: t

/-- `g_hash_table_remove` on a presence table. -/
def tbl_remove (t : List Nat) (k : Nat) : List Nat :=
  t.filter (fun x => x != k)

/-- `g_hash_table_insert` on the `removed` table (identity to type string):
replaces any existing value for the key. -/
def tbl_insert_kv (t : List (Nat × String)) (k : Nat) (v : String) :
    List (Nat × String) :=
  (k, v) :: t.filter (fun p => p.1 != k)

/-- `g_hash_table_remove` on the `removed` table. -/
def tbl_remove_kv (t : List (Nat × String)) (k : Nat) : List (Nat × String) :=
  t.filter (fun p => p.1 != k)

/-! ## Registry state (`ObjectData`, lines 64-79) -/

/-- The global registry. `objects` is the Live Set, `added` and `removed`
the two delta tables (lines 64-75). `weakRefs` records the finalization
observers registered through `g_object_weak_ref` /
`gst_mini_object_weak_ref`; it lives in the host framework rather than in
the C struct, and is kept as a list so that the same identity can be
registered more than once. -/
structure ObjectData where
  objects : List Nat
  added : List Nat
  removed : List (Nat × String)
  weakRefs : List Nat
  deriving DecidableEq, Repr

/-- The registry after the one-time initialisation in `get_func`
(lines 288-290): all tables empty. -/
def initState : ObjectData := ⟨[], [], [], []⟩

/-! ## Operations on the registry -/

/-- `_object_finalized` (lines 314-341). The weak notify fires while the
object is being destroyed; `type_name_now` is the string that
`G_OBJECT_TYPE_NAME (obj)` returns at that moment (line 334) — the query is
made during destruction, nothing was stored at creation. The insertion
into `removed` sits inside the `display_filter (DISPLAY_FLAG_CREATE)`
block (lines 320-335); the removals from `objects` and `added`
(lines 337-338) are unconditional. -/
def _object_finalized (display : Option String) (obj : Nat)
    (type_name_now : String) (s : ObjectData) : ObjectData :=
  let s1 :=
    if display_filter display DISPLAY_FLAG_CREATE then
      if !(s.added.contains obj) then
        { s with removed := tbl_insert_kv s.removed obj type_name_now }
      else s
    else s
  { s1 with objects := tbl_remove s1.objects obj,
            added := tbl_remove s1.added obj }

/-- The tracking part of the `g_object_new` wrapper (lines 361-397):
if the object is not yet in `objects` and passes `object_filter`, register
a weak ref and insert into `objects` and `added`; otherwise do nothing.
`obj_name` is `G_OBJECT_TYPE_NAME (obj)` queried on line 359. -/
def g_object_new_track (filter : Option String) (obj : Nat)
    (obj_name : String) (s : ObjectData) : ObjectData :=
  if !(s.objects.contains obj) && object_filter filter obj_name then
    { s with weakRefs := obj :: s.weakRefs,
             objects := tbl_insert s.objects obj,
             added := tbl_insert s.added obj }
  else s

/-- `new_mini_object` (lines 487-502): the display/name filters gate only
the trace line; the weak-ref registration (line 495) and the two inserts
(lines 497-498) are unconditional, with no presence check. -/
def new_mini_object (obj : Nat) (s : ObjectData) : ObjectData :=
  { s with weakRefs := obj :: s.weakRefs,
           objects := tbl_insert s.objects obj,
           added := tbl_insert s.added obj }

/-- The tracking part of `gst_mini_object_init` (lines 550-557): weak-ref
registration and both inserts happen only when the create category is
displayed and the name passes `object_filter`. `name` is
`g_type_name (GST_MINI_OBJECT_TYPE (mini_object))`. -/
def gst_mini_object_init (display filter : Option String) (obj : Nat)
    (name : String) (s : ObjectData) : ObjectData :=
  if display_filter display DISPLAY_FLAG_CREATE && object_filter filter name then
    { s with weakRefs := obj :: s.weakRefs,
             objects := tbl_insert s.objects obj,
             added := tbl_insert s.added obj }
  else s

/-! ## Dumps and checkpoints -/

/-- A GObject as `_dump_object_list` sees it through the table key:
only the reference count is inspected (line 189). -/
structure GObj where
  ref_count : Nat
  deriving DecidableEq, Repr

/-- The iteration of `_dump_object_list` (lines 185-194): entries whose
object is `NULL` (`none` here) or whose reference count is zero are
skipped with `continue`; the others are printed in order. -/
def dump_entries : List (Option GObj) → List GObj
  | [] => []
  | none :: rest => dump_entries rest
  | some o :: rest =>
      if o.ref_count = 0 then dump_entries rest else o :: dump_entries rest

/-- `_dump_object_list` (lines 179-196): the emitted entry lines, and the
count printed on line 195, which is the full `g_hash_table_size` of the
table, bad entries included. -/
def _dump_object_list (hash : List (Option GObj)) : List GObj × Nat :=
  (dump_entries hash, hash.length)

/-- What `_sig_usr2_handler` prints: the `added` table contents with its
size (line 217 via `_dump_object_list`, whose final line prints the table
size) and the `removed` table contents with its size (lines 220-225). -/
structure CheckpointReport where
  addedEntries : List Nat
  addedCount : Nat
  removedEntries : List (Nat × String)
  removedCount : Nat
  deriving DecidableEq, Repr

/-- `_sig_usr2_handler` (lines 208-232): under the registry lock, report
both delta tables, then `g_hash_table_remove_all` on `added` and `removed`
(lines 227-228). The `objects` table is not touched. -/
def _sig_usr2_handler (s : ObjectData) : CheckpointReport × ObjectData :=
  (⟨s.added, s.added.length, s.removed, s.removed.length⟩,
   { s with added := [], removed := [] })

/-! ## Event traces -/

/-- The entry points that mutate the registry, with the type names the C
code queries at each call site carried as event data. For `finalize`, the
name is the one `G_OBJECT_TYPE_NAME` yields during destruction. -/
inductive Event where
  | create (obj : Nat) (name : String)
  | createMini (obj : Nat) (name : String)
  | miniInit (obj : Nat) (name : String)
  | finalize (obj : Nat) (name : String)
  | checkpoint
  deriving DecidableEq, Repr

/-- The two environment variables read by the filters. -/
structure Env where
  display : Option String
  filter : Option String
  deriving DecidableEq, Repr

/-- One registry transition per intercepted event. The checkpoint report
is recomputed from the pre-state where needed. -/
def step (env : Env) (s : ObjectData) : Event → ObjectData
  | .create obj name => g_object_new_track env.filter obj name s
  | .createMini obj _ => new_mini_object obj s
  | .miniInit obj name => gst_mini_object_init env.display env.filter obj name s
  | .finalize obj name => _object_finalized env.display obj name s
  | .checkpoint => (_sig_usr2_handler s).2

/-- Replay of an event trace. -/
def run (env : Env) (s : ObjectData) : List Event → ObjectData
  | [] => s
  | e :: rest => run env (step env s e) rest

/-- An entry `_dump_object_list` skips: a `NULL` object or one whose
observed reference count is zero (line 189). -/
def badEntry : Option GObj → Bool
  | none => true
  | some o => o.ref_count == 0

/-! ## Helper lemmas about the table operations -/

theorem mem_tbl_insert {t : List Nat} {k x : Nat} :
    x ∈ tbl_insert t k ↔ x = k ∨ x ∈ t := by
  unfold tbl_insert
  by_cases h : t.contains k = true
  · have hk : k ∈ t := by simpa using h
    rw [if_pos h]
    constructor
    · exact Or.inr
    · rintro (rfl | hx)
      · exact hk
      · exact hx
  · rw [if_neg h]
    simp [List.mem_cons]

theorem mem_tbl_remove {t : List Nat} {k x : Nat} :
    x ∈ tbl_remove t k ↔ x ∈ t ∧ x ≠ k := by
  simp [tbl_remove, List.mem_filter]

/-! ## Claims -/

/-- C1: the claim says the Name Filter matches everything when
`GOBJECT_LIST_FILTER` is unset and otherwise matches exactly when the
configured string is a prefix of the type name. The compiled code returns
`FALSE` for every input: the stray `return FALSE;` on line 139 precedes
the filter logic, leaving lines 140-143 — which do implement the claimed
behaviour, see `object_filter_deadcode` — unreachable. -/
theorem C1_object_filter_always_false :
    (∀ filter obj_name, object_filter filter obj_name = false) ∧
    object_filter none "GstBuffer" = false ∧
    object_filter_deadcode none "GstBuffer" = true ∧
    object_filter_deadcode (some "Gst") "GstBuffer" = true ∧
    object_filter_deadcode (some "GLib") "GstBuffer" = false :=
  ⟨fun _ _ => rfl, rfl, rfl, by decide, by decide⟩

/-- C2 counterexample: with `GOBJECT_LIST_DISPLAY=refs` the creation
category is disabled, and finalizing object 7 — live since before the
last checkpoint, hence absent from `added` — inserts nothing into
`removed`, although the claim requires that insertion regardless of
display categories. The removal from the Live Set still happens. -/
theorem C2_counterexample :
    display_filter (some "refs") DISPLAY_FLAG_CREATE = false ∧
    (_object_finalized (some "refs") 7 "GstBuffer" ⟨[7], [], [], []⟩).removed = [] ∧
    (_object_finalized (some "refs") 7 "GstBuffer" ⟨[7], [], [], []⟩).objects = [] := by
  decide

/-- C2 (amended): the finalization hook unconditionally removes the
identity from the Live Set and the Added-Delta and touches no other
identity; the Removed-Delta insertion, like the trace line, happens only
when the creation display category is enabled (and the identity is not in
the Added-Delta). -/
theorem C2_finalize_conditional_insert (display : Option String)
    (obj : Nat) (nm : String) (s : ObjectData) :
    obj ∉ (_object_finalized display obj nm s).objects ∧
    obj ∉ (_object_finalized display obj nm s).added ∧
    (∀ x, x ≠ obj →
      ((x ∈ (_object_finalized display obj nm s).objects ↔ x ∈ s.objects) ∧
       (x ∈ (_object_finalized display obj nm s).added ↔ x ∈ s.added))) ∧
    (_object_finalized display obj nm s).removed =
      (if display_filter display DISPLAY_FLAG_CREATE = true ∧ obj ∉ s.added
       then tbl_insert_kv s.removed obj nm else s.removed) := by
  unfold _object_finalized
  by_cases hd : display_filter display DISPLAY_FLAG_CREATE = true
  · by_cases ha : obj ∈ s.added
    · simp [hd, ha, mem_tbl_remove]
      exact fun x hx => ⟨fun _ => hx, fun _ => hx⟩
    · simp [hd, ha, mem_tbl_remove]
      exact fun x hx => ⟨fun _ => hx, fun _ => hx⟩
  · simp [hd, mem_tbl_remove]
    exact fun x hx => ⟨fun _ => hx, fun _ => hx⟩

/-- C2 amended witness. -/
theorem C2_finalize_conditional_insert_witness :
    (2 ∈ (_object_finalized none 7 "T" ⟨[7, 2], [2], [], []⟩).objects ↔
      2 ∈ ([7, 2] : List Nat)) :=
  ((C2_finalize_conditional_insert none 7 "T" ⟨[7, 2], [2], [], []⟩).2.2.1
    2 (by decide)).1

/-- C3 counterexample: object 3 is created while the framework's type-name
query yields "GstBuffer", survives one checkpoint, and is finalized while
`G_OBJECT_TYPE_NAME` yields "MidDestroy". The Removed-Delta entry carries
the finalize-time string — line 334 performs the query inside
`_object_finalized`, during the object's destruction — and the
creation-time name, which the code never stores, does not appear. -/
theorem C3_counterexample :
    (run ⟨none, none⟩ initState
      [.createMini 3 "GstBuffer", .checkpoint, .finalize 3 "MidDestroy"]).removed
      = [(3, "MidDestroy")] ∧
    (3, "GstBuffer") ∉ (run ⟨none, none⟩ initState
      [.createMini 3 "GstBuffer", .checkpoint, .finalize 3 "MidDestroy"]).removed := by
  decide

/-- C3 (amended): the Removed-Delta entry of a finalized object carries
the type name queried from the object inside the finalization hook, while
the object is being destroyed; no type name is captured at creation. -/
theorem C3_removed_carries_finalize_time_name (display : Option String)
    (obj : Nat) (nm : String) (s : ObjectData)
    (hd : display_filter display DISPLAY_FLAG_CREATE = true)
    (ha : obj ∉ s.added) :
    (obj, nm) ∈ (_object_finalized display obj nm s).removed := by
  unfold _object_finalized
  simp [hd, ha, tbl_insert_kv]

/-- C3 amended witness. -/
theorem C3_removed_carries_finalize_time_name_witness :
    (3, "T") ∈ (_object_finalized none 3 "T" initState).removed :=
  C3_removed_carries_finalize_time_name none 3 "T" initState
    (by decide) (by decide)

/-- C4: finalizing an object still present in the Added-Delta — i.e.
created in the current checkpoint interval — leaves the Removed-Delta
exactly as it was and drops the object from the Live Set and Added-Delta;
the spec's transient-object scenario (create C, finalize C, checkpoint)
reports both deltas empty and leaves the Live Set empty. -/
theorem C4_transient_object (display : Option String) (obj : Nat)
    (nm : String) (s : ObjectData) (h : obj ∈ s.added) :
    (_object_finalized display obj nm s).removed = s.removed ∧
    obj ∉ (_object_finalized display obj nm s).objects ∧
    obj ∉ (_object_finalized display obj nm s).added ∧
    (_sig_usr2_handler (run ⟨none, none⟩ initState
        [.createMini 5 "GstC", .finalize 5 "GstC"])).1 = ⟨[], 0, [], 0⟩ ∧
    (run ⟨none, none⟩ initState
        [.createMini 5 "GstC", .finalize 5 "GstC"]).objects = [] := by
  refine ⟨?_, ?_, ?_, by decide, by decide⟩ <;>
    unfold _object_finalized <;> simp [h, mem_tbl_remove]

/-- C4 witness. -/
theorem C4_transient_object_witness :
    (_object_finalized none 9 "T" ⟨[9], [9], [], []⟩).removed = [] :=
  (C4_transient_object none 9 "T" ⟨[9], [9], [], []⟩ (by decide)).1

/-- Every single registry transition preserves Added-Delta ⊆ Live Set. -/
theorem step_preserves_added_subset (env : Env) (s : ObjectData) (e : Event)
    (h : ∀ x ∈ s.added, x ∈ s.objects) :
    ∀ x ∈ (step env s e).added, x ∈ (step env s e).objects := by
  cases e with
  | create obj name =>
      simpa [step, g_object_new_track, object_filter] using h
  | createMini obj name =>
      intro x hx
      simp only [step, new_mini_object] at hx ⊢
      rcases mem_tbl_insert.mp hx with rfl | hx'
      · exact mem_tbl_insert.mpr (Or.inl rfl)
      · exact mem_tbl_insert.mpr (Or.inr (h x hx'))
  | miniInit obj name =>
      simpa [step, gst_mini_object_init, object_filter] using h
  | finalize obj name =>
      intro x hx
      unfold step _object_finalized at hx ⊢
      by_cases hd : display_filter env.display DISPLAY_FLAG_CREATE = true <;>
        by_cases ha : obj ∈ s.added <;>
          simp [hd, ha, mem_tbl_remove] at hx ⊢ <;>
          exact ⟨h x hx.1, hx.2⟩
  | checkpoint =>
      simp [step, _sig_usr2_handler]

/-- The Added-Delta ⊆ Live Set invariant holds along any replay. -/
theorem run_preserves_added_subset (env : Env) :
    ∀ (evs : List Event) (s : ObjectData),
      (∀ x ∈ s.added, x ∈ s.objects) →
      ∀ x ∈ (run env s evs).added, x ∈ (run env s evs).objects := by
  intro evs
  induction evs with
  | nil => intro s h; simpa [run] using h
  | cons e rest ih =>
      intro s h
      simpa [run] using ih (step env s e) (step_preserves_added_subset env s e h)

/-- C5: every operation that inserts into the Added-Delta also inserts
into the Live Set, and finalization removes from both in the same
operation; hence Added-Delta ⊆ Live Set is preserved by every transition
and holds in every state reachable from the initial (empty) registry. -/
theorem C5_added_subset_live :
    (∀ env s e, (∀ x ∈ s.added, x ∈ s.objects) →
      ∀ x ∈ (step env s e).added, x ∈ (step env s e).objects) ∧
    (∀ env evs, ∀ x ∈ (run env initState evs).added,
      x ∈ (run env initState evs).objects) :=
  ⟨step_preserves_added_subset,
   fun env evs => run_preserves_added_subset env evs initState (by simp [initState])⟩

/-- C5 witness. -/
theorem C5_added_subset_live_witness :
    2 ∈ (step ⟨none, none⟩ ⟨[2], [2], [], []⟩ (Event.finalize 9 "T")).objects :=
  C5_added_subset_live.1 ⟨none, none⟩ ⟨[2], [2], [], []⟩ (Event.finalize 9 "T")
    (by decide) 2 (by decide)

/-- C6: a checkpoint reports exactly the current contents and sizes of the
two delta tables and empties both; a second checkpoint with no events in
between therefore reports size zero for both deltas and changes nothing
further. -/
theorem C6_checkpoint_snapshot_and_clear (s : ObjectData) :
    (_sig_usr2_handler s).1.addedEntries = s.added ∧
    (_sig_usr2_handler s).1.removedEntries = s.removed ∧
    (_sig_usr2_handler s).1.addedCount = s.added.length ∧
    (_sig_usr2_handler s).1.removedCount = s.removed.length ∧
    (_sig_usr2_handler s).2.added = [] ∧
    (_sig_usr2_handler s).2.removed = [] ∧
    (_sig_usr2_handler ((_sig_usr2_handler s).2)).1.addedCount = 0 ∧
    (_sig_usr2_handler ((_sig_usr2_handler s).2)).1.removedCount = 0 ∧
    (_sig_usr2_handler ((_sig_usr2_handler s).2)).2 = (_sig_usr2_handler s).2 :=
  ⟨rfl, rfl, rfl, rfl, rfl, rfl, rfl, rfl, rfl⟩

/-- C7 counterexample: `new_mini_object` performs no presence check, so a
second recording for identity 5 — already in the Live Set — registers a
second finalization observer (`weakRefs` grows to `[5, 5]`), although the
claim says recording an already-present identity is a no-op at every
creation entry point. -/
theorem C7_counterexample :
    5 ∈ (new_mini_object 5 initState).objects ∧
    (new_mini_object 5 initState).weakRefs = [5] ∧
    (new_mini_object 5 (new_mini_object 5 initState)).weakRefs = [5, 5] := by
  decide

/-- C7 (amended): the `g_object_new` wrapper checks the Live Set and is a
no-op for a present identity; `new_mini_object` does not check: it leaves
the Live Set unchanged (hash insert replaces, so no double-count in the
tables) but registers an additional finalization observer on every call. -/
theorem C7_recreate_guard (filter : Option String) (obj : Nat) (nm : String)
    (s : ObjectData) (h : obj ∈ s.objects) :
    g_object_new_track filter obj nm s = s ∧
    (new_mini_object obj s).objects = s.objects ∧
    (new_mini_object obj s).added = tbl_insert s.added obj ∧
    (new_mini_object obj s).weakRefs = obj :: s.weakRefs := by
  refine ⟨?_, ?_, rfl, rfl⟩
  · simp [g_object_new_track, object_filter]
  · simp [new_mini_object, tbl_insert, h]

/-- C7 amended witness. -/
theorem C7_recreate_guard_witness :
    g_object_new_track none 4 "T" ⟨[4], [], [], []⟩ = ⟨[4], [], [], []⟩ :=
  (C7_recreate_guard none 4 "T" ⟨[4], [], [], []⟩ (by decide)).1

/-- Skipping a bad entry never loses the rest of the dump. -/
theorem dump_entries_skip (xs ys : List (Option GObj)) (e : Option GObj)
    (h : badEntry e = true) :
    dump_entries (xs ++ e :: ys) = dump_entries (xs ++ ys) := by
  induction xs with
  | nil =>
      cases e with
      | none => rfl
      | some o =>
          have hz : o.ref_count = 0 := by simpa [badEntry] using h
          simp [dump_entries, hz]
  | cons a xs ih =>
      cases a with
      | none => simpa [dump_entries] using ih
      | some o => simp [dump_entries, ih]

/-- Every entry the dump emits has a positive observed reference count. -/
theorem dump_entries_ref_pos :
    ∀ (l : List (Option GObj)), ∀ o ∈ dump_entries l, o.ref_count ≠ 0 := by
  intro l
  induction l with
  | nil => intro o ho; simp [dump_entries] at ho
  | cons a rest ih =>
      cases a with
      | none => simpa [dump_entries] using ih
      | some o =>
          intro p hp
          by_cases hz : o.ref_count = 0
          · exact ih p (by simpa [dump_entries, hz] using hp)
          · rcases (by simpa [dump_entries, hz] using hp :
                p = o ∨ p ∈ dump_entries rest) with rfl | hm
            · exact hz
            · exact ih p hm

/-- C8: a Live Set dump entry whose object is `NULL` or whose observed
reference count is zero is skipped silently: the emitted entries are
exactly those of the table without it, every emitted entry has a non-zero
reference count, and the dump still terminates with the full table size —
the condition is never fatal (the dump is a total function). -/
theorem C8_dump_skips_bad_entries (xs ys : List (Option GObj))
    (e : Option GObj) (h : badEntry e = true) :
    dump_entries (xs ++ e :: ys) = dump_entries (xs ++ ys) ∧
    (∀ o ∈ (_dump_object_list (xs ++ e :: ys)).1, o.ref_count ≠ 0) ∧
    (_dump_object_list (xs ++ e :: ys)).2 = xs.length + ys.length + 1 := by
  refine ⟨dump_entries_skip xs ys e h, dump_entries_ref_pos _, ?_⟩
  simp [_dump_object_list]
  omega

/-- C8 witness. -/
theorem C8_dump_skips_bad_entries_witness :
    dump_entries ([some ⟨2⟩] ++ none :: [some ⟨3⟩]) =
      dump_entries ([some ⟨2⟩] ++ [some ⟨3⟩]) :=
  (C8_dump_skips_bad_entries [some ⟨2⟩] [some ⟨3⟩] none (by decide)).1

/-- Any flag a recognised token contributes is contained in
`DISPLAY_FLAG_ALL`. -/
theorem token_flag_subset_all {t : List Char} {f : Nat}
    (h : token_flag t = some f) :
    f ||| DISPLAY_FLAG_ALL = DISPLAY_FLAG_ALL := by
  unfold token_flag at h
  split_ifs at h <;> simp only [Option.some.injEq] at h <;> subst h <;> decide

/-- The parsed mask never leaves `DISPLAY_FLAG_ALL`. -/
theorem parseTokens_subset_all :
    ∀ (toks : List (List Char)) (acc : Nat),
      acc ||| DISPLAY_FLAG_ALL = DISPLAY_FLAG_ALL →
      parseTokens acc toks ||| DISPLAY_FLAG_ALL = DISPLAY_FLAG_ALL := by
  intro toks
  induction toks with
  | nil => intro acc h; simpa [parseTokens] using h
  | cons t rest ih =>
      intro acc h
      cases htf : token_flag t with
      | none => simpa only [parseTokens, htf] using ih acc h
      | some f =>
          simp only [parseTokens, htf]
          exact ih (acc ||| f) (by rw [Nat.lor_assoc, token_flag_subset_all htf, h])

/-- Parsing only adds bits to the accumulator. -/
theorem parseTokens_mono :
    ∀ (toks : List (List Char)) (acc : Nat),
      acc ||| parseTokens acc toks = parseTokens acc toks := by
  intro toks
  induction toks with
  | nil => intro acc; simp [parseTokens]
  | cons t rest ih =>
      intro acc
      cases htf : token_flag t with
      | none => simpa only [parseTokens, htf] using ih acc
      | some f =>
          simp only [parseTokens, htf]
          have h2 := ih (acc ||| f)
          have hself : acc ||| acc = acc := by simp
          conv_lhs => rw [← h2]
          rw [← Nat.lor_assoc, ← Nat.lor_assoc, hself, h2]

/-- When the token "all" occurs, the final mask contains every flag. -/
theorem parseTokens_all_mem :
    ∀ (toks : List (List Char)) (acc : Nat), "all".data ∈ toks →
      DISPLAY_FLAG_ALL ||| parseTokens acc toks = parseTokens acc toks := by
  intro toks
  induction toks with
  | nil => intro acc h; cases h
  | cons t rest ih =>
      intro acc hmem
      rcases List.mem_cons.mp hmem with ht | hrest
      · subst ht
        have hf : token_flag "all".data = some DISPLAY_FLAG_ALL := by decide
        simp only [parseTokens, hf]
        have h2 := parseTokens_mono rest (acc ||| DISPLAY_FLAG_ALL)
        have hself : DISPLAY_FLAG_ALL ||| DISPLAY_FLAG_ALL = DISPLAY_FLAG_ALL := by
          simp
        conv_lhs => rw [← h2]
        rw [← Nat.lor_assoc, ← Nat.lor_assoc,
          Nat.lor_comm DISPLAY_FLAG_ALL acc,
          Nat.lor_assoc acc DISPLAY_FLAG_ALL DISPLAY_FLAG_ALL, hself, h2]
      · cases htf : token_flag t with
        | none => simpa only [parseTokens, htf] using ih acc hrest
        | some f => simpa only [parseTokens, htf] using ih (acc ||| f) hrest

/-- C9: with `GOBJECT_LIST_DISPLAY` unset the Display Filter enables
exactly the creation category; a token list containing "all" yields
exactly the full flag set; unrecognised tokens contribute nothing to the
parse; and the static cache is written once and never changes on later
queries, which are answered from it. -/
theorem C9_display_parse :
    (parseDisplay none = DISPLAY_FLAG_CREATE ∧
     display_filter none DISPLAY_FLAG_CREATE = true ∧
     display_filter none DISPLAY_FLAG_REFS = false ∧
     display_filter none DISPLAY_FLAG_BACKTRACE = false) ∧
    (∀ s : String, "all".data ∈ g_strsplit s →
      parseDisplay (some s) = DISPLAY_FLAG_ALL) ∧
    (∀ (acc : Nat) (pre post : List (List Char)) (t : List Char),
      token_flag t = none →
      parseTokens acc (pre ++ t :: post) = parseTokens acc (pre ++ post)) ∧
    (∀ (display : Option String) (m flags : Nat),
      (display_filter_step display (some m) flags).2 = some m ∧
      (display_filter_step display (some m) flags).1 = ((m &&& flags) != 0) ∧
      (display_filter_step display none flags).2 = some (parseDisplay display)) := by
  refine ⟨⟨by decide, by decide, by decide, by decide⟩, ?_, ?_, ?_⟩
  · intro s hmem
    have hne : g_strsplit s ≠ [] := by
      intro hnil
      rw [hnil] at hmem
      cases hmem
    have hlen : 0 < (g_strsplit s).length := List.length_pos.mpr hne
    simp only [parseDisplay]
    rw [if_pos hlen]
    have h1 := parseTokens_subset_all (g_strsplit s) 0 (by decide)
    have h2 := parseTokens_all_mem (g_strsplit s) 0 hmem
    calc parseTokens 0 (g_strsplit s)
        = DISPLAY_FLAG_ALL ||| parseTokens 0 (g_strsplit s) := h2.symm
      _ = parseTokens 0 (g_strsplit s) ||| DISPLAY_FLAG_ALL := Nat.lor_comm _ _
      _ = DISPLAY_FLAG_ALL := h1
  · intro acc pre post t ht
    induction pre generalizing acc with
    | nil => simp [parseTokens, ht]
    | cons p pre ih =>
        cases htf : token_flag p with
        | none =>
            simpa only [List.cons_append, parseTokens, htf] using ih acc
        | some f =>
            simpa only [List.cons_append, parseTokens, htf] using ih (acc ||| f)
  · intro display m flags
    exact ⟨rfl, rfl, rfl⟩

/-- C9 witness. -/
theorem C9_display_parse_witness :
    parseDisplay (some "all") = DISPLAY_FLAG_ALL :=
  C9_display_parse.2.1 "all" (by decide)

/-- C10: handling the checkpoint signal leaves the Live Set (and the set
of registered finalization observers) untouched: only the two delta
tables are cleared. -/
theorem C10_checkpoint_preserves_live_set (env : Env) (s : ObjectData) :
    (step env s .checkpoint).objects = s.objects ∧
    (_sig_usr2_handler s).2.objects = s.objects ∧
    (_sig_usr2_handler s).2.weakRefs = s.weakRefs :=
  ⟨rfl, rfl, rfl⟩
